import Mathlib

/-!
Shallow embedding of the `streamlit-ldap-authenticator` package for
specification verification.  Each definition mirrors one function of the
Python source:

* `Person` and its operations mirror class `Person` of `ldap_authenticate.py`;
* `setattrStored` mirrors `Person._setattr`;
* `tokenEncode` and `tokenDecode` mirror `Authenticate.__tokenEncode` and
  `Authenticate.__tokenDecode` of `authenticate.py`;
* `checkReauth`, `setCookie` and `loginModel` mirror
  `Authenticate.__checkReauthentication`, `Authenticate.__setCookie` and
  `Authenticate.login`;
* `ldapLogin` and `createLoginFormCore` mirror `LdapAuthenticate.login` and
  the post-submission part of `Authenticate.__createLoginForm`.

Timestamps are modelled as integers: the code compares Python float
timestamps with `<`, and only the order structure of the time line matters
for the properties below.  Python exceptions are modelled as explicit
outcome values, never as Lean failure.
-/

/-- Identity record of `ldap_authenticate.Person`, restricted to the fields
that the hierarchy-traversal operations read: `dn`, `mail`, `user_name`, the
`manager_dn` attribute (which may be Python `None`) and the lazily resolved
`manager` object reference (`None` until resolved).  The object graph the
Python code builds from nested dictionaries or fresh directory lookups is a
finite tree, which the inductive type reflects. -/
inductive Person where
  | mk (dn mail user_name : String) (manager_dn : Option String)
       (manager : Option Person)

/-- Field accessor for `Person.dn`. -/
def Person.dn : Person → String
  | .mk d _ _ _ _ => d

/-- Field accessor for `Person.mail`. -/
def Person.mail : Person → String
  | .mk _ m _ _ _ => m

/-- Field accessor for `Person.user_name`. -/
def Person.userName : Person → String
  | .mk _ _ u _ _ => u

/-- Field accessor for `Person.manager_dn`. -/
def Person.managerDn : Person → Option String
  | .mk _ _ _ md _ => md

/-- Field accessor for `Person.manager`. -/
def Person.manager : Person → Option Person
  | .mk _ _ _ _ mg => mg

/-- Model of `Person._isReportTo` (`ldap_authenticate.py` lines 171-195) with
`conn = None`: the lazy resolution branch is guarded by `conn is not None`
and is inert, so the walk only follows already-resolved `manager` references.
The comparison `self.manager_dn == manager.dn` is Python equality, where
`None == str` is false, hence the `Option` comparison. -/
def Person.isReportToAux : Person → Person → Nat → Nat → Bool
  | .mk _ _ _ mdn mgr, target, maxLevel, currentLevel =>
    if currentLevel > maxLevel then false
    else
      match mgr with
      | none => false
      | some m =>
        if mdn = some target.dn then true
        else Person.isReportToAux m target maxLevel (currentLevel + 1)

/-- Model of `Person.isReportTo` (lines 197-213): entry point with
`currentLevel = 1` and default `maxLevel = 3`. -/
def Person.isReportTo (self target : Person) (maxLevel : Nat := 3) : Bool :=
  Person.isReportToAux self target maxLevel 1

/-- Model of `Person.isReportToByEmail` (lines 215-229): walk the
already-resolved manager chain comparing the `mail` attribute, with no depth
parameter. -/
def Person.isReportToByEmail : Person → String → Bool
  | .mk _ _ _ _ none, _ => false
  | .mk _ _ _ _ (some m), mail =>
    if m.mail = mail then true
    else Person.isReportToByEmail m mail

/-- The resolved manager chain of a record: the sequence of `manager`
references followed until an unresolved (`None`) link. -/
def Person.managerChain : Person → List Person
  | .mk _ _ _ _ none => []
  | .mk _ _ _ _ (some m) => m :: Person.managerChain m

/-- Nodes visited by the `_isReportTo` walk: the record itself followed by
its resolved manager chain. -/
def Person.chainNodes (p : Person) : List Person :=
  p :: p.managerChain

/-- Stored shape of a directory attribute on a `Person` record: Python
attribute absent, a scalar string, or a list of strings. -/
inductive AttrVal where
  | absent
  | scalar (s : String)
  | strings (l : List String)
deriving DecidableEq

/-- Model of the Python test `value is not []` in `Person._setattr`
(`ldap_authenticate.py` line 77).  The literal `[]` creates a fresh list
object, so the identity comparison `is not` yields `True` for every operand,
whatever its contents. -/
def valueIsNotEmptyList (_value : List String) : Bool :=
  true

/-- Model of `Person._setattr` (lines 71-79): how a directory attribute value
list delivered to record construction is stored on the record.  The branch
structure of the source is kept; the first guard is `value is not []`. -/
def setattrStored (value : List String) : AttrVal :=
  if valueIsNotEmptyList value then AttrVal.strings value
  else
    match value with
    | [a] => AttrVal.scalar a
    | _ => AttrVal.strings value

/-- Modelled from the spec: the attribute-collapse rule as the specification
states it (a zero-length value list maps to absent, a one-element list to the
scalar string, a multi-element list to the list unchanged).  Stated here only
to be compared with `setattrStored`, the rule the source actually
implements. -/
def collapseRule : List String → AttrVal
  | [] => AttrVal.absent
  | [a] => AttrVal.scalar a
  | l => AttrVal.strings l

/-- Flat attribute value inside a `UserInfos` dictionary: a string, a list of
strings, or Python `None` (the shapes `UserInfoValue` of `configs.py`
enumerates). -/
inductive UVal where
  | vstr (s : String)
  | vlist (l : List String)
  | vnone
deriving DecidableEq

/-- Flat user-information dictionary (`UserInfos` of `configs.py`), as it is
placed under the `user` field of the cookie payload. -/
abbrev UserInfos := List (String × UVal)

/-- Value of the decoded JSON payload of the cookie token: a number (Python
float), a string, null, or a flat user dictionary.  The decoder only ever
distinguishes number versus dictionary versus anything else, so these
constructors cover every shape its checks can tell apart. -/
inductive JVal where
  | jnum (n : Int)
  | jstr (s : String)
  | jnull
  | jdict (u : UserInfos)
deriving DecidableEq

/-- Decoded top-level JWT payload: a JSON object (Python dict) with named
fields, or some non-dictionary value. -/
inductive Payload where
  | dict (fields : List (String × JVal))
  | nondict
deriving DecidableEq

/-- Model of the HS256 signature over a payload: a deterministic value of the
signing key and the signed bytes.  Verification compares the stored signature
with the one recomputed from the presented key and payload, exactly as a MAC
check does. -/
def mkSig (key : String) (p : Payload) : String × Payload :=
  (key, p)

/-- Signed cookie token: payload plus signature, the value `jwt.encode`
produces and `jwt.decode` consumes. -/
structure Token where
  payload : Payload
  sig : String × Payload
deriving DecidableEq

/-- Model of `Authenticate.__tokenEncode` (`authenticate.py` lines 111-127):
build the payload `{user: ..., exp_date: ...}` and sign it with the
configured key.  `expDate` stands for `utcnow() + timedelta(days=expiry_days)`
as an absolute timestamp. -/
def tokenEncode (key : String) (expDate : Int) (user : UserInfos) : Token :=
  let p := Payload.dict [("user", JVal.jdict user), ("exp_date", JVal.jnum expDate)]
  { payload := p, sig := mkSig key p }

/-- Model of `Authenticate.__tokenDecode` (lines 129-160) at current time
`now`.  Every raised `CookieError` and every `jwt.decode` failure is caught
by the `except` clause and becomes `none`.  The checks appear in source
order: token present, signature valid, payload is a dict, `exp_date` present
and numeric, `exp_date < now` raises `Cookie expired`, `user` present and a
dict. -/
def tokenDecode (key : String) (now : Int) (token : Option Token) : Option UserInfos :=
  match token with
  | none => none
  | some t =>
    if t.sig ≠ mkSig key t.payload then none
    else
      match t.payload with
      | Payload.nondict => none
      | Payload.dict fields =>
        match fields.lookup "exp_date" with
        | some (JVal.jnum expDate) =>
          if expDate < now then none
          else
            match fields.lookup "user" with
            | some (JVal.jdict u) => some u
            | _ => none
        | _ => none

/-- Expiry field of a token's payload, when it is present with the numeric
type the decoder demands. -/
def tokenExpDate (t : Token) : Option Int :=
  match t.payload with
  | Payload.dict fields =>
    match fields.lookup "exp_date" with
    | some (JVal.jnum e) => some e
    | _ => none
  | Payload.nondict => none

/-- Cookie-channel configuration (`CookieConfig` of `configs.py`): signing
key, cookie name, expiry span (the additive timestamp offset standing for
`timedelta(days=expiry_days)`) and the auto-renewal flag. -/
structure CookieConfig where
  key : String
  name : String
  expiryDays : Int
  autoRenewal : Bool

/-- Result type of the caller-supplied authorization predicate
`additionalCheck`: Python `True`, or a denial reason string (the code tests
`result != True`). -/
inductive CheckRes where
  | isTrue
  | msg (reason : String)

/-- State the engine reads and writes: the session-channel user slot
(`st.session_state[session_configs.user]`, `none` when absent or not a
dict), the remember-me slot (`none` when the key is absent or not a bool),
and the browser cookie under the configured name. -/
structure AuthState where
  sessionUser : Option UserInfos
  rememberMe : Option Bool
  cookie : Option Token

/-- Model of `Authenticate.__getRememberMe` (`authenticate.py` lines
101-107): return the stored flag when it is a bool, otherwise store `True`
and return it. -/
def getRememberMe (st : AuthState) : Bool × AuthState :=
  match st.rememberMe with
  | some b => (b, st)
  | none => (true, { st with rememberMe := some true })

/-- Model of `Authenticate.__setCookie` (lines 175-191): skip when the user
is `None` or the cookie channel is not configured, read (and default) the
remember-me flag, suppress the write when it is false, otherwise store the
freshly encoded token with expiry `now + expiryDays`. -/
def setCookie (cfg : Option CookieConfig) (now : Int) (user : Option UserInfos)
    (st : AuthState) : AuthState :=
  match user with
  | none => st
  | some u =>
    match cfg with
    | none => st
    | some c =>
      let (rm, st1) := getRememberMe st
      if rm then { st1 with cookie := some (tokenEncode c.key (now + c.expiryDays) u) }
      else st1

/-- Model of `Authenticate.__getCookie` (lines 162-173): `none` when the
cookie channel is not configured, otherwise decode the stored browser cookie
at the current time. -/
def getCookie (cfg : Option CookieConfig) (now : Int) (st : AuthState) : Option UserInfos :=
  match cfg with
  | none => none
  | some c => tokenDecode c.key now st.cookie

/-- Model of `Authenticate.__checkReauthentication` (lines 281-308): fail
unless the candidate is a dict; succeed immediately when no predicate was
supplied; otherwise consult the predicate (called with connection `None`),
fail on a non-`True` result, and on success renew the cookie when the cookie
channel is configured with auto-renewal.  Returns the verdict together with
the state after any renewal write. -/
def checkReauth (cfg : Option CookieConfig) (pred : Option (UserInfos → CheckRes))
    (now : Int) (user : Option UserInfos) (st : AuthState) : Bool × AuthState :=
  match user with
  | none => (false, st)
  | some u =>
    match pred with
    | none => (true, st)
    | some f =>
      match f u with
      | CheckRes.msg _ => (false, st)
      | CheckRes.isTrue =>
        match cfg with
        | some c =>
          if c.autoRenewal then (true, setCookie (some c) now (some u) st)
          else (true, st)
        | none => (true, st)

/-- Acceptance test of `__checkReauthentication` on a present candidate:
no predicate, or the predicate returns `True`. -/
def acceptedB (pred : Option (UserInfos → CheckRes)) (u : UserInfos) : Bool :=
  match pred with
  | none => true
  | some f =>
    match f u with
    | CheckRes.isTrue => true
    | CheckRes.msg _ => false

/-- Observable outcome of one invocation of `Authenticate.login`: the
returned value, the state after the call, whether the cookie channel was
consulted (`__getCookie` invoked), whether the interactive challenge
(`__createLoginForm`) was invoked, and whether `st.rerun()` was signalled. -/
structure LoginOutcome where
  result : Option UserInfos
  state : AuthState
  cookieRead : Bool
  challenged : Bool
  rerun : Bool

/-- Model of `Authenticate.login` (`authenticate.py` lines 310-354).  The
outcome of the interactive challenge (`__createLoginForm`, which depends on
an external form-submission event) is supplied as `formResult`: `none` when
no dict was produced, `some u` when the form flow returned the authenticated
user dictionary.  Phase order follows the source: session slot, then cookie,
then the challenge; on interactive success the session slot and then the
cookie are written and a rerun is signalled. -/
def loginModel (cfg : Option CookieConfig) (pred : Option (UserInfos → CheckRes))
    (now : Int) (formResult : Option UserInfos) (st : AuthState) : LoginOutcome :=
  let u1 := st.sessionUser
  let r1 := checkReauth cfg pred now u1 st
  if r1.1 then
    { result := u1, state := r1.2, cookieRead := false, challenged := false, rerun := false }
  else
    let u2 := getCookie cfg now r1.2
    let r2 := checkReauth cfg pred now u2 r1.2
    if r2.1 then
      { result := u2, state := { r2.2 with sessionUser := u2 },
        cookieRead := true, challenged := false, rerun := false }
    else
      match formResult with
      | none =>
        { result := none, state := r2.2, cookieRead := true, challenged := true, rerun := false }
      | some u =>
        let st3 := { r2.2 with sessionUser := some u }
        let st4 := setCookie cfg now (some u) st3
        { result := some u, state := st4, cookieRead := true, challenged := true, rerun := true }

/-- Python value returned by `LdapAuthenticate.login`: a string, a `Person`
object, a user dictionary, Python `None`, or some other callable object.
The last two arise because the call site at `authenticate.py` line 258
passes `additionalCheck` (a function or `None`) as the `wrongMessage`
argument. -/
inductive PyVal where
  | pstr (s : String)
  | pdict (u : UserInfos)
  | pperson (p : Person)
  | pnone
  | pcallable

/-- Result of invoking the `func` argument of `LdapAuthenticate.login` on
`(conn, user)`: Python `True`, an error-message string, or a raised
exception (directory errors, or a `TypeError` from an arity mismatch). -/
inductive FuncRes where
  | isTrue
  | msg (reason : String)
  | exn

/-- Value bound to the `func` parameter of `LdapAuthenticate.login`:
`None`, a proper two-argument callable as the signature documents, or a
one-argument lambda (the value `authenticate.py` line 258 actually passes),
whose application to `(conn, user)` raises `TypeError`. -/
inductive FuncArg where
  | noFunc
  | twoArg (f : Person → FuncRes)
  | oneArg

/-- Outcome of applying a `FuncArg` to the two arguments `(conn, user)`. -/
def FuncArg.apply : FuncArg → Person → Option FuncRes
  | FuncArg.noFunc, _ => none
  | FuncArg.twoArg f, user => some (f user)
  | FuncArg.oneArg, _ => some FuncRes.exn

/-- Model of `LdapAuthenticate.login` (`ldap_authenticate.py` lines
319-362).  The directory behaviour is an input: whether `conn.bind()`
raises, the bind result code (`conn.result` is `0` on success), whether the
`getPersonByUserName` search raises, and the search outcome.  Every
exception path inside the `try` returns `wrongMessage`, as the
`except Exception` clause does; the result type has no failure constructor,
mirroring that the function never raises to its caller.  The credential
domain-prefix munging before the `try` block does not influence which of
these paths is taken and is left out. -/
def ldapLogin (bindExn : Bool) (bindResult : Int) (lookupExn : Bool)
    (lookupRes : Option Person) (func : FuncArg) (wrongMessage : PyVal) : PyVal :=
  if bindExn then wrongMessage
  else if bindResult ≠ 0 then wrongMessage
  else if lookupExn then wrongMessage
  else
    match lookupRes with
    | none => wrongMessage
    | some user =>
      match FuncArg.apply func user with
      | none => PyVal.pperson user
      | some FuncRes.isTrue => PyVal.pperson user
      | some (FuncRes.msg s) => PyVal.pstr s
      | some FuncRes.exn => wrongMessage

/-- What `Authenticate.__createLoginForm` does with the value
`ldap_auth.login` returned (lines 260-266 of `authenticate.py`): display a
string as the error message, return a dict as the authenticated user, or
display the `Unexpected Return` error for anything else. -/
inductive FormDisplay where
  | errorMsg (s : String)
  | success (u : UserInfos)
  | unexpected
deriving DecidableEq

/-- Model of the post-submission part of `Authenticate.__createLoginForm`
(lines 256-266): the call at line 258 passes the one-argument lookup lambda
as `login`'s `func` parameter and the caller's `additionalCheck` as its
`wrongMessage` parameter, so `wrongMessage` is the predicate's function
object (or `None`), not a string. -/
def createLoginFormCore (additionalCheck : Option (UserInfos → CheckRes))
    (bindExn : Bool) (bindResult : Int) (lookupExn : Bool)
    (lookupRes : Option Person) : FormDisplay :=
  let wrongMessage : PyVal :=
    match additionalCheck with
    | none => PyVal.pnone
    | some _ => PyVal.pcallable
  match ldapLogin bindExn bindResult lookupExn lookupRes FuncArg.oneArg wrongMessage with
  | PyVal.pstr s => FormDisplay.errorMsg s
  | PyVal.pdict u => FormDisplay.success u
  | _ => FormDisplay.unexpected




/-- C4: the claimed attribute-collapse rule fails on the code.  The guard
`value is not []` of `Person._setattr` is an identity comparison against a
fresh list object and is always true, so every delivered value list is
stored unchanged: a zero-length list is stored as an empty list rather than
leaving the attribute absent, and a one-element list is stored as a list
rather than collapsed to the scalar string. -/
theorem c4_setattr_no_collapse :
    (∀ value : List String, setattrStored value = AttrVal.strings value)
    ∧ setattrStored ["Alice"] ≠ collapseRule ["Alice"]
    ∧ setattrStored [] ≠ collapseRule [] :=
  ⟨fun _ => rfl, by decide, by decide⟩

/-- C2: for every flat user record, signing key and expiry instant strictly
in the future at decode time, decoding the token produced by encoding
returns exactly the encoded record. -/
theorem c2_token_roundtrip (key : String) (user : UserInfos) (expDate now : Int)
    (h : now < expDate) :
    tokenDecode key now (some (tokenEncode key expDate user)) = some user := by
  have hexp : ¬ (expDate < now) := by omega
  have hl : List.lookup "exp_date" [("user", JVal.jdict user), ("exp_date", JVal.jnum expDate)]
      = some (JVal.jnum expDate) := rfl
  have hu : List.lookup "user" [("user", JVal.jdict user), ("exp_date", JVal.jnum expDate)]
      = some (JVal.jdict user) := rfl
  simp [tokenDecode, tokenEncode, mkSig, hexp, hl, hu]

/-- Witness for `c2_token_roundtrip` at a concrete record and expiry. -/
theorem c2_token_roundtrip_witness :
    ((0 : Int) < 10)
    ∧ tokenDecode "k" 0 (some (tokenEncode "k" 10 [("name", UVal.vstr "alice")]))
        = some [("name", UVal.vstr "alice")] :=
  ⟨by decide, c2_token_roundtrip "k" [("name", UVal.vstr "alice")] 10 0 (by decide)⟩

/-- C3 counterexample: a correctly signed token whose expiry instant equals
the current instant is accepted by the decoder (the code only rejects
`exp_date < now`), refuting the claim that every token with expiry at or
before the current instant is treated as absent. -/
theorem c3_expiry_boundary_counterexample :
    tokenDecode "k" 0 (some (tokenEncode "k" 0 [("name", UVal.vstr "alice")]))
      = some [("name", UVal.vstr "alice")] := by
  rfl

/-- C3 amended: decoding returns absent for every token whose expiry instant
is strictly before the current instant, regardless of the token's signature;
expiry exactly at the current instant is accepted. -/
theorem c3_expired_token_absent (key : String) (now : Int) (t : Token) (e : Int)
    (he : tokenExpDate t = some e) (hlt : e < now) :
    tokenDecode key now (some t) = none := by
  obtain ⟨payload, sig⟩ := t
  by_cases hs : sig = mkSig key payload
  · cases payload with
    | nondict => simp [tokenDecode]
    | dict fields =>
      simp only [tokenExpDate] at he
      cases hl : fields.lookup "exp_date" with
      | none => rw [hl] at he; exact absurd he (by simp)
      | some v =>
        cases v with
        | jnum e2 =>
          rw [hl] at he
          simp only [Option.some.injEq, JVal.jnum.injEq] at he
          subst he
          simp [tokenDecode, hs, hl, hlt]
        | jstr s => rw [hl] at he; exact absurd he (by simp)
        | jnull => rw [hl] at he; exact absurd he (by simp)
        | jdict u => rw [hl] at he; exact absurd he (by simp)
  · simp [tokenDecode, hs]

/-- Witness for `c3_expired_token_absent` at a concrete expired token. -/
theorem c3_expired_token_absent_witness :
    tokenExpDate (tokenEncode "k" (-1) [("name", UVal.vstr "alice")]) = some (-1)
    ∧ ((-1 : Int) < 0)
    ∧ tokenDecode "k" 0 (some (tokenEncode "k" (-1) [("name", UVal.vstr "alice")])) = none :=
  ⟨rfl, by decide,
    c3_expired_token_absent "k" 0 (tokenEncode "k" (-1) [("name", UVal.vstr "alice")])
      (-1) rfl (by decide)⟩

/-- Characterisation of the `_isReportTo` walk: starting at recursion level
`c`, the walk succeeds exactly when some node of the visited chain, at an
index keeping the level within `maxLevel`, still has a resolved manager and
carries the target's distinguished name in its `manager_dn` attribute. -/
theorem isReportToAux_true_iff : ∀ (self target : Person) (maxLevel c : Nat),
    Person.isReportToAux self target maxLevel c = true ↔
      ∃ j p, (Person.chainNodes self).get? j = some p ∧ p.manager.isSome = true ∧
        p.managerDn = some target.dn ∧ c + j ≤ maxLevel
  | .mk dn ml un mdn none, target, maxLevel, c => by
    constructor
    · intro h
      exfalso
      simp [Person.isReportToAux] at h
    · rintro ⟨j, p, hget, hsome, hdn, hle⟩
      exfalso
      simp only [Person.chainNodes, Person.managerChain] at hget
      cases j with
      | zero =>
        simp only [List.get?_cons_zero, Option.some.injEq] at hget
        rw [← hget] at hsome
        simp [Person.manager] at hsome
      | succ j =>
        simp at hget
  | .mk dn ml un mdn (some m), target, maxLevel, c => by
    have ih := isReportToAux_true_iff m target maxLevel (c + 1)
    by_cases hcm : c > maxLevel
    · constructor
      · intro h
        exfalso
        simp [Person.isReportToAux, hcm] at h
      · rintro ⟨j, p, _, _, _, hle⟩
        exfalso
        omega
    · by_cases hdn : mdn = some target.dn
      · constructor
        · intro _
          refine ⟨0, Person.mk dn ml un mdn (some m), ?_, ?_, ?_, ?_⟩
          · simp [Person.chainNodes]
          · simp [Person.manager]
          · simp [Person.managerDn, hdn]
          · omega
        · intro _
          simp [Person.isReportToAux, hcm, hdn]
      · have hstep : Person.isReportToAux (Person.mk dn ml un mdn (some m)) target maxLevel c
            = Person.isReportToAux m target maxLevel (c + 1) := by
          simp [Person.isReportToAux, hcm, hdn]
        have hchain : Person.chainNodes (Person.mk dn ml un mdn (some m))
            = Person.mk dn ml un mdn (some m) :: Person.chainNodes m := by
          simp [Person.chainNodes, Person.managerChain]
        rw [hstep, ih, hchain]
        constructor
        · rintro ⟨j, p, h1, h2, h3, h4⟩
          exact ⟨j + 1, p, by simpa using h1, h2, h3, by omega⟩
        · rintro ⟨j, p, h1, h2, h3, h4⟩
          cases j with
          | zero =>
            simp only [List.get?_cons_zero, Option.some.injEq] at h1
            rw [← h1] at h3
            simp only [Person.managerDn] at h3
            exact absurd h3 hdn
          | succ j =>
            exact ⟨j, p, by simpa using h1, h2, h3, by omega⟩

/-- Concrete manager chain for the depth-limit boundary: `c5personA` reports
to `c5personB`, who reports to `c5personC`, who reports to `c5personD`, who
reports to `c5personE`; all links are resolved and all distinguished names
are distinct. -/
def c5personE : Person := .mk "dnE" "e@x" "e" none none

/-- Manager of `c5personE`'s report `c5personD`; see `c5personE`. -/
def c5personD : Person := .mk "dnD" "d@x" "d" (some "dnE") (some c5personE)

/-- Third node of the concrete chain; see `c5personE`. -/
def c5personC : Person := .mk "dnC" "c@x" "c" (some "dnD") (some c5personD)

/-- Second node of the concrete chain; see `c5personE`. -/
def c5personB : Person := .mk "dnB" "b@x" "b" (some "dnC") (some c5personC)

/-- Bottom node of the concrete chain; see `c5personE`. -/
def c5personA : Person := .mk "dnA" "a@x" "a" (some "dnB") (some c5personB)

/-- C5 counterexample: in the chain A→B→C→D with `maxDepth = 3`,
`A.isReportTo(D)` returns `true`, not `false` as claimed — the walk compares
`manager_dn` while standing on C at recursion level 3, which is still within
the `currentLevel > maxLevel` cut-off. -/
theorem c5_isReportTo_boundary_counterexample :
    Person.isReportTo c5personA c5personD 3 = true := by
  rfl

/-- C5 amended: the walk returns true exactly on a distinguished-name match
found at chain index `j < maxDepth` (so a target exactly `maxDepth` hops
away is still found), and false when the chain ends unresolved or the match
would need more than `maxDepth` hops; on the concrete chain A→B→C→D→E with
`maxDepth = 3`, C (2 hops) and D (3 hops) are found and E (4 hops) is
not. -/
theorem c5_isReportTo_depth_characterisation :
    (∀ (self target : Person) (maxLevel : Nat),
      Person.isReportTo self target maxLevel = true ↔
        ∃ j p, (Person.chainNodes self).get? j = some p ∧ p.manager.isSome = true ∧
          p.managerDn = some target.dn ∧ j < maxLevel)
    ∧ Person.isReportTo c5personA c5personC 3 = true
    ∧ Person.isReportTo c5personA c5personD 3 = true
    ∧ Person.isReportTo c5personA c5personE 3 = false := by
  refine ⟨?_, rfl, rfl, rfl⟩
  intro self target maxLevel
  rw [Person.isReportTo, isReportToAux_true_iff]
  constructor
  · rintro ⟨j, p, h1, h2, h3, h4⟩
    exact ⟨j, p, h1, h2, h3, by omega⟩
  · rintro ⟨j, p, h1, h2, h3, h4⟩
    exact ⟨j, p, h1, h2, h3, by omega⟩

/-- The email walk visits the entire resolved manager chain: it succeeds
exactly when some node of the chain, at any depth, carries the email. -/
theorem isReportToByEmail_eq_chain_any : ∀ (p : Person) (mail : String),
    Person.isReportToByEmail p mail
      = (Person.managerChain p).any (fun q => q.mail == mail)
  | .mk dn ml un mdn none, mail => by
    simp [Person.isReportToByEmail, Person.managerChain]
  | .mk dn ml un mdn (some m), mail => by
    have ih := isReportToByEmail_eq_chain_any m mail
    simp only [Person.isReportToByEmail, Person.managerChain, List.any_cons, ih]
    by_cases h : m.mail = mail
    · simp [h]
    · simp [h]

/-- Target of the unbounded-depth chain family used for C10. -/
def c10target : Person := .mk "dnT" "target@x" "t" none none

/-- Resolved manager chain of length `n + 1` ending at `c10target`, whose
email occurs only at the deepest link: every intermediate node has mail
`f@x`. -/
def c10chain : Nat → Person
  | 0 => .mk "dn0" "f@x" "f" (some "dnT") (some c10target)
  | n + 1 => .mk "dnF" "f@x" "f" (some "dnF") (some (c10chain n))

/-- Every node of the chain family below the target has mail `f@x`. -/
theorem c10chain_mail (n : Nat) : (c10chain n).mail = "f@x" := by
  cases n <;> rfl

/-- C10: `isReportToByEmail` applies no depth ceiling.  First conjunct: the
walk equals a search over the whole resolved manager chain, with no depth
parameter truncating it.  Second conjunct: the target is found at depth
`n + 1` for every `n`, so no `maxDepth`-style bound cuts the recursion; on
the inductive embedding every resolved chain is finite and acyclic, and the
walk is total on exactly those chains. -/
theorem c10_email_walk_unbounded :
    (∀ (p : Person) (mail : String),
      Person.isReportToByEmail p mail
        = (Person.managerChain p).any (fun q => q.mail == mail))
    ∧ (∀ n : Nat, Person.isReportToByEmail (c10chain n) "target@x" = true) := by
  refine ⟨isReportToByEmail_eq_chain_any, ?_⟩
  intro n
  induction n with
  | zero => rfl
  | succ n ih =>
    have hm : ¬ ((c10chain n).mail = "target@x") := by
      rw [c10chain_mail]
      decide
    show Person.isReportToByEmail (.mk "dnF" "f@x" "f" (some "dnF") (some (c10chain n)))
        "target@x" = true
    simp only [Person.isReportToByEmail, if_neg hm]
    exact ih

/-- Concrete directory entry used to instantiate the `ldapLogin`
properties. -/
def c9person : Person := .mk "dnU" "u@x" "u" none none

/-- C9: `LdapAuthenticate.login` never raises to its caller (its result type
in the model has no failure constructor; every Python exception path is an
explicit input that the `except` clause folds into the message).  First
conjunct: a raised bind, a rejected bind (non-zero result code), a raised
search and a search with no matching entry all return the one generic
wrong-credentials message.  Second conjunct: an exception inside the
additional-check callable also returns it.  Third conjunct: an identity is
returned only on full success — bind succeeded, the lookup found the entry,
and the additional check was absent or returned `True`. -/
theorem c9_login_never_raises :
    (∀ (w : String) (bindExn : Bool) (bindResult : Int) (lookupExn : Bool)
        (lookupRes : Option Person) (func : FuncArg),
      bindExn = true ∨ bindResult ≠ 0 ∨ lookupExn = true ∨ lookupRes = none →
      ldapLogin bindExn bindResult lookupExn lookupRes func (PyVal.pstr w) = PyVal.pstr w)
    ∧ (∀ (w : String) (f : Person → FuncRes) (u : Person),
      f u = FuncRes.exn →
      ldapLogin false 0 false (some u) (FuncArg.twoArg f) (PyVal.pstr w) = PyVal.pstr w)
    ∧ (∀ (w : String) (bindExn : Bool) (bindResult : Int) (lookupExn : Bool)
        (lookupRes : Option Person) (func : FuncArg) (u : Person),
      ldapLogin bindExn bindResult lookupExn lookupRes func (PyVal.pstr w) = PyVal.pperson u →
      bindExn = false ∧ bindResult = 0 ∧ lookupExn = false ∧ lookupRes = some u ∧
        (func = FuncArg.noFunc ∨ ∃ f, func = FuncArg.twoArg f ∧ f u = FuncRes.isTrue)) := by
  refine ⟨?_, ?_, ?_⟩
  · intro w bindExn bindResult lookupExn lookupRes func h
    unfold ldapLogin
    rcases h with h | h | h | h
    · simp [h]
    · cases bindExn
      · simp [h]
      · rfl
    · cases bindExn
      · by_cases hbr : bindResult = 0
        · simp [hbr, h]
        · simp [hbr]
      · rfl
    · cases bindExn
      · by_cases hbr : bindResult = 0
        · cases lookupExn
          · simp [hbr, h]
          · simp [hbr]
        · simp [hbr]
      · rfl
  · intro w f u hf
    unfold ldapLogin FuncArg.apply
    simp [hf]
  · intro w bindExn bindResult lookupExn lookupRes func u h
    unfold ldapLogin at h
    cases bindExn with
    | true => exact absurd h (by simp)
    | false =>
      rw [if_neg (by simp)] at h
      by_cases hbr : bindResult = 0
      · rw [if_neg (not_not_intro hbr)] at h
        cases lookupExn with
        | true =>
          rw [if_pos rfl] at h
          exact absurd h (by simp)
        | false =>
          rw [if_neg (by simp)] at h
          cases lookupRes with
          | none => exact absurd h (by simp)
          | some user =>
            cases func with
            | noFunc =>
              simp only [FuncArg.apply] at h
              injection h with hu
              subst hu
              exact ⟨rfl, hbr, rfl, rfl, Or.inl rfl⟩
            | oneArg =>
              simp only [FuncArg.apply] at h
              exact absurd h (by simp)
            | twoArg f =>
              simp only [FuncArg.apply] at h
              cases hf : f user with
              | isTrue =>
                rw [hf] at h
                injection h with hu
                subst hu
                exact ⟨rfl, hbr, rfl, rfl, Or.inr ⟨f, rfl, hf⟩⟩
              | msg s =>
                rw [hf] at h
                exact absurd h (by simp)
              | exn =>
                rw [hf] at h
                exact absurd h (by simp)
      · rw [if_pos hbr] at h
        exact absurd h (by simp)

/-- Witness for `c9_login_never_raises`: each conjunct instantiated at a
concrete directory outcome. -/
theorem c9_login_never_raises_witness :
    ldapLogin true 0 false none FuncArg.noFunc (PyVal.pstr "Wrong userName or Password.")
        = PyVal.pstr "Wrong userName or Password."
    ∧ ldapLogin false 0 false (some c9person) (FuncArg.twoArg fun _ => FuncRes.exn)
        (PyVal.pstr "Wrong userName or Password.")
        = PyVal.pstr "Wrong userName or Password."
    ∧ (false = false ∧ (0 : Int) = 0 ∧ false = false ∧ some c9person = some c9person ∧
        (FuncArg.noFunc = FuncArg.noFunc ∨
          ∃ f, FuncArg.noFunc = FuncArg.twoArg f ∧ f c9person = FuncRes.isTrue)) :=
  ⟨c9_login_never_raises.1 "Wrong userName or Password." true 0 false none FuncArg.noFunc
      (Or.inl rfl),
   c9_login_never_raises.2.1 "Wrong userName or Password." (fun _ => FuncRes.exn) c9person rfl,
   c9_login_never_raises.2.2 "Wrong userName or Password." false 0 false (some c9person)
      FuncArg.noFunc c9person rfl⟩

/-- Directory entry found for the C6 interactive scenario. -/
def c6person : Person := .mk "dnJ" "jdoe@example.com" "jdoe" none none

/-- Authorization predicate of the C6 scenario: always deny with the reason
string the claim expects to be shown verbatim. -/
def c6pred : UserInfos → CheckRes := fun _ => CheckRes.msg "You are not authorized"

/-- Cookie configuration of the C6 scenario. -/
def c6cfg : CookieConfig := { key := "k", name := "login_cookie", expiryDays := 86400,
                              autoRenewal := true }

/-- Engine state of the C6 scenario: nothing in either channel. -/
def c6state : AuthState := { sessionUser := none, rememberMe := some true, cookie := none }

/-- C6: evaluation of the code at the failing input.  During an interactive
attempt with a successful bind and lookup, a caller-supplied predicate that
denies with reason `You are not authorized` is never consulted: the call at
`authenticate.py` line 258 passes the one-argument lookup lambda as
`login`'s `func` and the predicate as its `wrongMessage`, the two-argument
application of the lambda raises `TypeError`, `login` returns the predicate
object itself, and the form shows the `Unexpected Return` error instead of
the reason string.  The remaining parts of the claim do hold: the engine
stays in the challenge phase with no session-channel or cookie-channel
write. -/
theorem c6_denial_reason_never_shown :
    createLoginFormCore (some c6pred) false 0 false (some c6person) = FormDisplay.unexpected
    ∧ createLoginFormCore (some c6pred) false 0 false (some c6person)
        ≠ FormDisplay.errorMsg "You are not authorized"
    ∧ (loginModel (some c6cfg) (some c6pred) 0 none c6state).result = none
    ∧ (loginModel (some c6cfg) (some c6pred) 0 none c6state).state = c6state
    ∧ (loginModel (some c6cfg) (some c6pred) 0 none c6state).challenged = true :=
  ⟨rfl, by decide, rfl, rfl, rfl⟩

/-- Verdict of the reauthentication check on a present candidate is exactly
the acceptance test: no predicate, or the predicate answering `True`. -/
theorem checkReauth_some_fst (cfg : Option CookieConfig)
    (pred : Option (UserInfos → CheckRes)) (now : Int) (u : UserInfos) (st : AuthState) :
    (checkReauth cfg pred now (some u) st).1 = acceptedB pred u := by
  cases pred with
  | none => rfl
  | some f =>
    cases hfu : f u with
    | msg r => simp [checkReauth, acceptedB, hfu]
    | isTrue =>
      cases cfg with
      | none => simp [checkReauth, acceptedB, hfu]
      | some c => cases hc : c.autoRenewal <;> simp [checkReauth, acceptedB, hfu, hc]

/-- A failed reauthentication check leaves the engine state unchanged. -/
theorem checkReauth_fst_false_snd (cfg : Option CookieConfig)
    (pred : Option (UserInfos → CheckRes)) (now : Int) (user : Option UserInfos)
    (st : AuthState) (h : (checkReauth cfg pred now user st).1 = false) :
    (checkReauth cfg pred now user st).2 = st := by
  cases user with
  | none => rfl
  | some u =>
    cases pred with
    | none => simp [checkReauth] at h
    | some f =>
      cases hfu : f u with
      | msg r => simp [checkReauth, hfu]
      | isTrue =>
        cases cfg with
        | none => simp [checkReauth, hfu] at h
        | some c => cases hc : c.autoRenewal <;> simp [checkReauth, hfu, hc] at h

/-- With the remember-me slot holding `false`, a cookie write is a no-op on
the whole state. -/
theorem setCookie_noop_of_rememberMe_false (cfg : Option CookieConfig) (now : Int)
    (user : Option UserInfos) (st : AuthState) (h : st.rememberMe = some false) :
    setCookie cfg now user st = st := by
  cases user with
  | none => rfl
  | some u =>
    cases cfg with
    | none => rfl
    | some c => simp [setCookie, getRememberMe, h]

/-- C1: channel precedence of `Authenticate.login`.  First conjunct: a
session-channel identity accepted by the predicate is returned with the
cookie channel never consulted and the challenge never invoked.  Second
conjunct: when the session check fails and the cookie channel yields an
accepted identity, that identity is returned and written into the session
channel, with no challenge.  Third conjunct: when both channels fail the
engine falls through to the interactive challenge. -/
theorem c1_channel_precedence :
    (∀ (cfg : Option CookieConfig) (pred : Option (UserInfos → CheckRes)) (now : Int)
        (form : Option UserInfos) (st : AuthState) (u : UserInfos),
      st.sessionUser = some u → acceptedB pred u = true →
      (loginModel cfg pred now form st).result = some u ∧
      (loginModel cfg pred now form st).cookieRead = false ∧
      (loginModel cfg pred now form st).challenged = false)
    ∧ (∀ (cfg : Option CookieConfig) (pred : Option (UserInfos → CheckRes)) (now : Int)
        (form : Option UserInfos) (st : AuthState) (u : UserInfos),
      (checkReauth cfg pred now st.sessionUser st).1 = false →
      getCookie cfg now st = some u → acceptedB pred u = true →
      (loginModel cfg pred now form st).result = some u ∧
      (loginModel cfg pred now form st).state.sessionUser = some u ∧
      (loginModel cfg pred now form st).challenged = false)
    ∧ (∀ (cfg : Option CookieConfig) (pred : Option (UserInfos → CheckRes)) (now : Int)
        (form : Option UserInfos) (st : AuthState),
      (checkReauth cfg pred now st.sessionUser st).1 = false →
      (checkReauth cfg pred now (getCookie cfg now st) st).1 = false →
      (loginModel cfg pred now form st).challenged = true) := by
  refine ⟨?_, ?_, ?_⟩
  · intro cfg pred now form st u hs hacc
    simp only [loginModel]
    rw [hs, checkReauth_some_fst, hacc]
    simp
  · intro cfg pred now form st u h1 hc hacc
    have h1s := checkReauth_fst_false_snd cfg pred now st.sessionUser st h1
    simp only [loginModel]
    rw [h1, h1s, hc, checkReauth_some_fst, hacc]
    simp
  · intro cfg pred now form st h1 h2
    have h1s := checkReauth_fst_false_snd cfg pred now st.sessionUser st h1
    simp only [loginModel]
    rw [h1, h1s, h2]
    cases form <;> simp

/-- User record for the C1 witness instances. -/
def c1user : UserInfos := [("name", UVal.vstr "alice")]

/-- Cookie configuration for the C1 witness instances. -/
def c1cfg : CookieConfig := { key := "kc", name := "login_cookie", expiryDays := 86400,
                              autoRenewal := false }

/-- State with the identity in the session channel only. -/
def c1stateSession : AuthState := { sessionUser := some c1user, rememberMe := some true,
                                    cookie := none }

/-- State with the identity in the cookie channel only. -/
def c1stateCookie : AuthState := { sessionUser := none, rememberMe := some true,
                                   cookie := some (tokenEncode "kc" 10 c1user) }

/-- State with both channels empty. -/
def c1stateEmpty : AuthState := { sessionUser := none, rememberMe := some true, cookie := none }

/-- Witness for `c1_channel_precedence`: the three phases instantiated at
concrete states. -/
theorem c1_channel_precedence_witness :
    ((loginModel none none 0 none c1stateSession).result = some c1user ∧
      (loginModel none none 0 none c1stateSession).cookieRead = false ∧
      (loginModel none none 0 none c1stateSession).challenged = false)
    ∧ ((loginModel (some c1cfg) none 0 none c1stateCookie).result = some c1user ∧
      (loginModel (some c1cfg) none 0 none c1stateCookie).state.sessionUser = some c1user ∧
      (loginModel (some c1cfg) none 0 none c1stateCookie).challenged = false)
    ∧ (loginModel none none 0 none c1stateEmpty).challenged = true :=
  ⟨c1_channel_precedence.1 none none 0 none c1stateSession c1user rfl rfl,
   c1_channel_precedence.2.1 (some c1cfg) none 0 none c1stateCookie c1user rfl rfl rfl,
   c1_channel_precedence.2.2 none none 0 none c1stateEmpty rfl rfl⟩

/-- C7: when the session's remember-me flag is `false`, a successful
interactive authentication (the challenge produced the user dictionary `u`
after both reauthentication channels failed) sets the session channel and
returns the identity while the cookie channel is left untouched. -/
theorem c7_remember_false_suppresses_cookie
    (cfg : Option CookieConfig) (pred : Option (UserInfos → CheckRes)) (now : Int)
    (u : UserInfos) (st : AuthState)
    (hrm : st.rememberMe = some false)
    (h1 : (checkReauth cfg pred now st.sessionUser st).1 = false)
    (h2 : (checkReauth cfg pred now (getCookie cfg now st) st).1 = false) :
    (loginModel cfg pred now (some u) st).result = some u ∧
    (loginModel cfg pred now (some u) st).state.sessionUser = some u ∧
    (loginModel cfg pred now (some u) st).state.cookie = st.cookie := by
  have h1s := checkReauth_fst_false_snd cfg pred now st.sessionUser st h1
  have h2s := checkReauth_fst_false_snd cfg pred now (getCookie cfg now st) st h2
  simp only [loginModel]
  rw [h1, h1s, h2, h2s]
  rw [setCookie_noop_of_rememberMe_false cfg now (some u) { st with sessionUser := some u } hrm]
  simp

/-- Witness for `c7_remember_false_suppresses_cookie` at a concrete state
that declined persistence. -/
theorem c7_remember_false_suppresses_cookie_witness :
    (loginModel (some c1cfg) none 0 (some [("name", UVal.vstr "bob")])
        { sessionUser := none, rememberMe := some false, cookie := none }).result
      = some [("name", UVal.vstr "bob")]
    ∧ (loginModel (some c1cfg) none 0 (some [("name", UVal.vstr "bob")])
        { sessionUser := none, rememberMe := some false, cookie := none }).state.sessionUser
      = some [("name", UVal.vstr "bob")]
    ∧ (loginModel (some c1cfg) none 0 (some [("name", UVal.vstr "bob")])
        { sessionUser := none, rememberMe := some false, cookie := none }).state.cookie
      = ({ sessionUser := none, rememberMe := some false, cookie := none } : AuthState).cookie :=
  c7_remember_false_suppresses_cookie (some c1cfg) none 0 [("name", UVal.vstr "bob")]
    { sessionUser := none, rememberMe := some false, cookie := none } rfl rfl rfl

/-- User record for the C8 instances. -/
def c8user : UserInfos := [("name", UVal.vstr "alice")]

/-- Cookie configuration with the auto-renewal flag set. -/
def c8cfg : CookieConfig := { key := "k8", name := "login_cookie", expiryDays := 86400,
                              autoRenewal := true }

/-- State with an authorized identity in the session channel, remember-me
true and no cookie yet. -/
def c8state : AuthState := { sessionUser := some c8user, rememberMe := some true,
                             cookie := none }

/-- C8 counterexample: a successful reauthentication through the session
channel with auto-renewal configured and remember-me true, but with no
caller-supplied predicate, performs no cookie refresh at all — the early
return of `__checkReauthentication` when `additionalCheck is None` skips the
renewal write, so the refresh is not independent of whether a predicate was
provided. -/
theorem c8_no_renewal_without_predicate_counterexample :
    (loginModel (some c8cfg) none 0 none c8state).result = some c8user
    ∧ (loginModel (some c8cfg) none 0 none c8state).state.cookie = none :=
  ⟨rfl, rfl⟩

/-- C8 amended: with auto-renewal configured and remember-me true, the
cookie is refreshed with the new expiry on an authorized reauthentication
through the session channel or the cookie channel only when a
caller-supplied predicate is present and answers `True`.  When no predicate
is supplied the reauthentication still succeeds but the cookie is never
refreshed: on the session path the whole state is left unchanged, and on
the cookie path the decoded identity is written into the session slot (as
the claim's source line 345 prescribes) while the cookie stays exactly as
it was. -/
theorem c8_renewal_requires_predicate :
    (∀ (c : CookieConfig) (f : UserInfos → CheckRes) (now : Int) (st : AuthState)
        (u : UserInfos) (form : Option UserInfos),
      st.sessionUser = some u → f u = CheckRes.isTrue → c.autoRenewal = true →
      st.rememberMe = some true →
      (loginModel (some c) (some f) now form st).result = some u ∧
      (loginModel (some c) (some f) now form st).state.cookie
        = some (tokenEncode c.key (now + c.expiryDays) u))
    ∧ (∀ (c : CookieConfig) (f : UserInfos → CheckRes) (now : Int) (st : AuthState)
        (u : UserInfos) (form : Option UserInfos),
      st.sessionUser = none → getCookie (some c) now st = some u →
      f u = CheckRes.isTrue → c.autoRenewal = true → st.rememberMe = some true →
      (loginModel (some c) (some f) now form st).result = some u ∧
      (loginModel (some c) (some f) now form st).state.cookie
        = some (tokenEncode c.key (now + c.expiryDays) u))
    ∧ (∀ (cfg : Option CookieConfig) (now : Int) (st : AuthState) (u : UserInfos)
        (form : Option UserInfos),
      st.sessionUser = some u →
      (loginModel cfg none now form st).result = some u ∧
      (loginModel cfg none now form st).state = st)
    ∧ (∀ (cfg : Option CookieConfig) (now : Int) (st : AuthState) (u : UserInfos)
        (form : Option UserInfos),
      st.sessionUser = none → getCookie cfg now st = some u →
      (loginModel cfg none now form st).result = some u ∧
      (loginModel cfg none now form st).state.sessionUser = some u ∧
      (loginModel cfg none now form st).state.cookie = st.cookie ∧
      (loginModel cfg none now form st).state.rememberMe = st.rememberMe) := by
  refine ⟨?_, ?_, ?_, ?_⟩
  · intro c f now st u form hs hf har hrm
    have hcr : checkReauth (some c) (some f) now (some u) st
        = (true, { st with cookie := some (tokenEncode c.key (now + c.expiryDays) u) }) := by
      simp [checkReauth, hf, har, setCookie, getRememberMe, hrm]
    simp only [loginModel]
    rw [hs, hcr]
    simp
  · intro c f now st u form hs hc hf har hrm
    have h1 : (checkReauth (some c) (some f) now st.sessionUser st).1 = false := by
      rw [hs]
      rfl
    have h1s := checkReauth_fst_false_snd (some c) (some f) now st.sessionUser st h1
    have hcr : checkReauth (some c) (some f) now (some u) st
        = (true, { st with cookie := some (tokenEncode c.key (now + c.expiryDays) u) }) := by
      simp [checkReauth, hf, har, setCookie, getRememberMe, hrm]
    simp only [loginModel]
    rw [h1, h1s, hc, hcr]
    simp
  · intro cfg now st u form hs
    have hcr : checkReauth cfg none now (some u) st = (true, st) := rfl
    simp only [loginModel]
    rw [hs, hcr]
    simp
  · intro cfg now st u form hs hc
    have h1 : (checkReauth cfg none now st.sessionUser st).1 = false := by
      rw [hs]
      rfl
    have h1s := checkReauth_fst_false_snd cfg none now st.sessionUser st h1
    have hcr : checkReauth cfg none now (some u) st = (true, st) := rfl
    simp only [loginModel]
    rw [h1, h1s, hc, hcr]
    simp

/-- Witness for `c8_renewal_requires_predicate`: the three conjuncts at
concrete states. -/
theorem c8_renewal_requires_predicate_witness :
    ((loginModel (some c8cfg) (some fun _ => CheckRes.isTrue) 0 none c8state).result
        = some c8user ∧
      (loginModel (some c8cfg) (some fun _ => CheckRes.isTrue) 0 none c8state).state.cookie
        = some (tokenEncode c8cfg.key (0 + c8cfg.expiryDays) c8user))
    ∧ ((loginModel (some c8cfg) (some fun _ => CheckRes.isTrue) 0 none
          { sessionUser := none, rememberMe := some true,
            cookie := some (tokenEncode "k8" 5 c8user) }).result = some c8user ∧
      (loginModel (some c8cfg) (some fun _ => CheckRes.isTrue) 0 none
          { sessionUser := none, rememberMe := some true,
            cookie := some (tokenEncode "k8" 5 c8user) }).state.cookie
        = some (tokenEncode c8cfg.key (0 + c8cfg.expiryDays) c8user))
    ∧ ((loginModel none none 0 none c8state).result = some c8user ∧
      (loginModel none none 0 none c8state).state = c8state)
    ∧ ((loginModel (some c8cfg) none 0 none
          { sessionUser := none, rememberMe := some true,
            cookie := some (tokenEncode "k8" 5 c8user) }).result = some c8user ∧
      (loginModel (some c8cfg) none 0 none
          { sessionUser := none, rememberMe := some true,
            cookie := some (tokenEncode "k8" 5 c8user) }).state.sessionUser = some c8user ∧
      (loginModel (some c8cfg) none 0 none
          { sessionUser := none, rememberMe := some true,
            cookie := some (tokenEncode "k8" 5 c8user) }).state.cookie
        = some (tokenEncode "k8" 5 c8user) ∧
      (loginModel (some c8cfg) none 0 none
          { sessionUser := none, rememberMe := some true,
            cookie := some (tokenEncode "k8" 5 c8user) }).state.rememberMe = some true) :=
  ⟨c8_renewal_requires_predicate.1 c8cfg (fun _ => CheckRes.isTrue) 0 c8state c8user none
      rfl rfl rfl rfl,
   c8_renewal_requires_predicate.2.1 c8cfg (fun _ => CheckRes.isTrue) 0
      { sessionUser := none, rememberMe := some true,
        cookie := some (tokenEncode "k8" 5 c8user) } c8user none rfl rfl rfl rfl rfl,
   c8_renewal_requires_predicate.2.2.1 none 0 c8state c8user none rfl,
   c8_renewal_requires_predicate.2.2.2 (some c8cfg) 0
      { sessionUser := none, rememberMe := some true,
        cookie := some (tokenEncode "k8" 5 c8user) } c8user none rfl rfl⟩
